import Mathlib

/- Shallow embedding of src/main.py of the TrainingPeaks file-processor
backend: the decoded FIT messages (lap / record / workout-step), the
pace, heart-rate-zone and heart-rate-drift derivations, and the two CSV
summarizers.  Python floats and datetimes are modelled as exact rationals
(datetimes as epoch seconds), dictionaries with possibly-null values as
fields of type Option (Option _) (outer layer: key present; inner layer:
value non-null), and a raised exception as the error case of Except. -/

namespace FitProc

/-- Python round(): round half to even, on the idealized rational value. -/
def pyRound (q : ℚ) : ℤ :=
  let f := ⌊q⌋
  let r := q - (f : ℚ)
  if r < 1 / 2 then f
  else if 1 / 2 < r then f + 1
  else if f % 2 = 0 then f else f + 1

/-- Python round(x, 2): round to two decimal places, half to even. -/
def pyRound2 (q : ℚ) : ℚ := (pyRound (q * 100) : ℚ) / 100

/-- Python int() on a float: truncation toward zero. -/
def pyTrunc (q : ℚ) : ℤ := if 0 ≤ q then ⌊q⌋ else ⌈q⌉

/-- Python float modulo x % y: result carries the sign of y. All uses here
have y = 60 > 0, where x % y = x - y * floor (x / y). -/
def pyMod (x y : ℚ) : ℚ := x - y * (⌊x / y⌋ : ℚ)

/-- Python format spec 02d: left-pad with a zero to width two. -/
def pad2 (n : ℤ) : String := if 0 ≤ n ∧ n < 10 then "0" ++ toString n else toString n

/-- Python dict.get(k): a missing key and a stored null both give None. -/
def pyGet {α : Type} (f : Option (Option α)) : Option α := f.join

/-- Python dict.get(k, d): the default fires only when the key is missing;
a stored null is returned as None. -/
def pyGetD {α : Type} (f : Option (Option α)) (d : α) : Option α := f.getD (some d)

/-- Python a or b on optional numbers: None and 0 are falsy. -/
def pyOrQ (a b : Option ℚ) : Option ℚ :=
  match a with
  | some q => if q = 0 then b else some q
  | none => b

/-- Rendered str() of an optional int inside an f-string: None prints as None. -/
def optIntStr (v : Option ℤ) : String :=
  match v with
  | some n => toString n
  | none => "None"

/-- One decoded lap message (a dict from field name to optional value). -/
structure LapMsg where
  start_time : Option (Option ℚ) := none
  total_elapsed_time : Option (Option ℚ) := none
  total_distance : Option (Option ℚ) := none
  avg_heart_rate : Option (Option ℚ) := none
  max_heart_rate : Option (Option ℚ) := none
  enhanced_avg_speed : Option (Option ℚ) := none
  avg_speed : Option (Option ℚ) := none
  avg_running_cadence : Option (Option ℚ) := none
  avg_cadence : Option (Option ℚ) := none
  avg_fractional_cadence : Option (Option ℚ) := none
  avg_power : Option (Option ℚ) := none
  intensity : Option (Option String) := none
deriving DecidableEq

/-- One decoded record message: only timestamp and heart_rate are read. -/
structure RecordMsg where
  timestamp : Option (Option ℚ) := none
  heart_rate : Option (Option ℚ) := none
deriving DecidableEq

/-- One decoded workout_step message. -/
structure StepMsg where
  wkt_step_name : Option (Option String) := none
  duration_type : Option (Option String) := none
  duration_time : Option (Option ℚ) := none
  intensity : Option (Option String) := none
  custom_target_heart_rate_low : Option (Option ℚ) := none
  custom_target_heart_rate_high : Option (Option ℚ) := none
  custom_target_speed_low : Option (Option ℚ) := none
  custom_target_speed_high : Option (Option ℚ) := none
  repeat_steps : Option (Option ℤ) := none
  duration_step : Option (Option ℤ) := none
deriving DecidableEq

/-- seconds_to_pace from main.py: seconds per meter to a M:SS pace string,
minutes by float floor-division, seconds by int() of the float modulo. -/
def seconds_to_pace (seconds_per_meter : Option ℚ) : Option String :=
  match seconds_per_meter with
  | none => none
  | some s =>
    if s = 0 then none
    else
      let seconds_per_km := s * 1000
      some (toString ⌊seconds_per_km / 60⌋ ++ ":" ++ pad2 (pyTrunc (pyMod seconds_per_km 60)))

/-- convert_hr from main.py: subtract the +100 device encoding offset. -/
def convert_hr (encoded_value : Option ℚ) : Option ℚ := encoded_value.map (fun v => v - 100)

/-- speed_to_pace_seconds from main.py: m/s to rounded seconds per km. -/
def speed_to_pace_seconds (speed_ms : Option ℚ) : Option ℤ :=
  match speed_ms with
  | none => none
  | some s => if s = 0 then none else some (pyRound (1000 / s))

/-- pace_seconds_to_string from main.py: integer seconds per km to M:SS,
with Python integer floor-division and nonnegative modulo. -/
def pace_seconds_to_string (seconds_per_km : Option ℤ) : Option String :=
  match seconds_per_km with
  | none => none
  | some s => some (toString (Int.fdiv s 60) ++ ":" ++ pad2 (Int.emod s 60))

/-- get_zone_name from main.py: the fixed HR-zone lookup table. -/
def get_zone_name (hr_low hr_high : Option ℚ) : String :=
  match hr_low, hr_high with
  | none, _ => ""
  | _, none => ""
  | some lo, some hi =>
    if hi ≤ 130 then "Zone 1: Recovery"
    else if hi ≤ 145 then
      if lo < 130 then "Zone 1: Recovery - Zone 2: Aerobic" else "Zone 2: Aerobic"
    else if hi ≤ 160 then
      if lo < 145 then "Zone 2: Aerobic - Zone 3: Tempo" else "Zone 3: Tempo"
    else if hi ≤ 175 then "Zone 4: Threshold"
    else "Zone 5: VO2 Max"

/-- The record-filtering loop of calculate_hr_drift.  A record is inspected
only when both the timestamp and heart_rate keys are present; comparing a
stored null timestamp against the window bounds raises a TypeError, which
surfaces as the error case. -/
def collectHR : List RecordMsg → ℚ → ℚ → Except Unit (List (ℚ × ℚ))
  | [], _, _ => .ok []
  | r :: rs, s, e =>
    match r.timestamp, r.heart_rate with
    | some tsv, some hrv =>
      match tsv with
      | none => .error ()
      | some ts =>
        if s ≤ ts ∧ ts < e then
          match hrv with
          | some hr =>
            match collectHR rs s e with
            | .ok rest => .ok ((ts, hr) :: rest)
            | .error u => .error u
          | none => collectHR rs s e
        else collectHR rs s e
    | _, _ => collectHR rs s e

/-- statistics.mean on the idealized rationals (callers guard emptiness). -/
def mean (l : List ℚ) : ℚ := l.sum / (l.length : ℚ)

/-- calculate_hr_drift from main.py. -/
def calculate_hr_drift (records : List RecordMsg) (start_time duration_seconds : ℚ) :
    Except Unit (Option ℚ) :=
  if duration_seconds < 300 then .ok none
  else
    match collectHR records start_time (start_time + duration_seconds) with
    | .error u => .error u
    | .ok lap_hr_values =>
      if lap_hr_values.length < 10 then .ok none
      else
        let mid_point := lap_hr_values.length / 2
        let first_half := (lap_hr_values.take mid_point).map Prod.snd
        let second_half := (lap_hr_values.drop mid_point).map Prod.snd
        if first_half = [] ∨ second_half = [] then .ok none
        else
          let first_half_avg := mean first_half
          let second_half_avg := mean second_half
          if first_half_avg = 0 then .ok none
          else .ok (some (pyRound2 ((second_half_avg - first_half_avg) / first_half_avg * 100)))

/-- One rendered CSV cell, kept symbolic so that emptiness and the carried
value are visible to the theorems. -/
inductive Cell
  | empty
  | num (q : ℚ)
  | int (n : ℤ)
  | str (s : String)
deriving DecidableEq

/-- str() rendering of a cell into the CSV text. -/
def Cell.render : Cell → String
  | .empty => ""
  | .num q => toString q.num ++ (if q.den = 1 then "" else "/" ++ toString q.den)
  | .int n => toString n
  | .str s => s

/-- Python x or the empty string, for an optional number: None and 0 blank out. -/
def qCell (v : Option ℚ) : Cell :=
  match v with
  | some q => if q = 0 then .empty else .num q
  | none => .empty

/-- Python x or the empty string, for an optional integer. -/
def iCell (v : Option ℤ) : Cell :=
  match v with
  | some n => if n = 0 then .empty else .int n
  | none => .empty

/-- Python x or the empty string, for an optional string. -/
def sCell (v : Option String) : Cell :=
  match v with
  | some s => if s = "" then .empty else .str s
  | none => .empty

/-- strftime stand-in: an injective total rendering of the timestamp. -/
def fmtTime (t : ℚ) : String := "ts:" ++ toString t.num ++ "/" ++ toString t.den

/-- One output row of the lap-data CSV. -/
structure LapRow where
  lap_number : ℕ
  lap_name : String
  start_time : String
  duration_seconds : Cell
  distance_meters : Cell
  avg_heart_rate : Cell
  max_heart_rate : Cell
  avg_pace : Cell
  avg_cadence : Cell
  avg_power : Cell
  hr_drift : Cell
deriving DecidableEq

/-- The avg_pace derivation of a lap row: enhanced_avg_speed with truthiness
fallback to avg_speed, then the truncating seconds-per-meter pace path. -/
def lapPace (lap : LapMsg) : Option String :=
  match pyOrQ (pyGet lap.enhanced_avg_speed) (pyGet lap.avg_speed) with
  | some sp => if 0 < sp then seconds_to_pace (some (1 / sp)) else none
  | none => none

/-- The avg_cadence derivation of a lap row.  When the chosen cadence is
truthy, Python adds dict.get of avg_fractional_cadence with default 0; a
stored null there makes the addition raise a TypeError. -/
def lapCadCell (lap : LapMsg) : Except Unit Cell :=
  match pyOrQ (pyGet lap.avg_running_cadence) (pyGet lap.avg_cadence) with
  | some c =>
    if c = 0 then .ok Cell.empty
    else
      match pyGetD lap.avg_fractional_cadence 0 with
      | some fr => .ok (iCell (some (pyRound ((c + fr) * 2))))
      | none => .error ()
  | none => .ok Cell.empty

/-- The hr_drift derivation of a lap row: computed only when start_time and
a truthy duration are present. -/
def lapDrift (lap : LapMsg) (record_data : List RecordMsg) : Except Unit (Option ℚ) :=
  match pyGet lap.start_time, pyGet lap.total_elapsed_time with
  | some st, some d => if d = 0 then .ok none else calculate_hr_drift record_data st d
  | _, _ => .ok none

/-- Assembles a lap row from the lap message, its 1-based index and the two
already-computed fallible parts. -/
def mkLapRow (lap : LapMsg) (idx : ℕ) (cad : Cell) (drift : Option ℚ) : LapRow :=
  { lap_number := idx
    lap_name :=
      match pyGet lap.intensity with
      | some s => if s = "" then "" else s
      | none => ""
    start_time :=
      match pyGet lap.start_time with
      | some t => fmtTime t
      | none => ""
    duration_seconds := qCell (pyGet lap.total_elapsed_time)
    distance_meters := qCell (pyGet lap.total_distance)
    avg_heart_rate := qCell (pyGet lap.avg_heart_rate)
    max_heart_rate := qCell (pyGet lap.max_heart_rate)
    avg_pace := sCell (lapPace lap)
    avg_cadence := cad
    avg_power := qCell (pyGet lap.avg_power)
    hr_drift :=
      match drift with
      | some v => .num v
      | none => .empty }

/-- One iteration of the lap loop in create_lap_data_csv_content. -/
def lapRow (lap : LapMsg) (record_data : List RecordMsg) (idx : ℕ) : Except Unit LapRow :=
  match lapCadCell lap with
  | .error u => .error u
  | .ok cad =>
    match lapDrift lap record_data with
    | .error u => .error u
    | .ok drift => .ok (mkLapRow lap idx cad drift)

/-- The lap loop of create_lap_data_csv_content, carrying the enumerate
counter. -/
def lapRowsFrom : ℕ → List LapMsg → List RecordMsg → Except Unit (List LapRow)
  | _, [], _ => .ok []
  | i, l :: ls, recs =>
    match lapRow l recs i with
    | .error u => .error u
    | .ok r =>
      match lapRowsFrom (i + 1) ls recs with
      | .error u => .error u
      | .ok rest => .ok (r :: rest)

/-- Header line written by the lap-data DictWriter. -/
def lapHeader : String :=
  "lap_number,lap_name,start_time,duration_seconds,distance_meters,avg_heart_rate,max_heart_rate,avg_pace,avg_cadence,avg_power,hr_drift"

/-- Rendering of one lap row to a CSV line. -/
def renderLapRow (r : LapRow) : String :=
  toString r.lap_number ++ "," ++ r.lap_name ++ "," ++ r.start_time ++ "," ++
  r.duration_seconds.render ++ "," ++ r.distance_meters.render ++ "," ++
  r.avg_heart_rate.render ++ "," ++ r.max_heart_rate.render ++ "," ++
  r.avg_pace.render ++ "," ++ r.avg_cadence.render ++ "," ++
  r.avg_power.render ++ "," ++ r.hr_drift.render

/-- create_lap_data_csv_content from main.py: the full CSV text, or the
propagated exception. -/
def create_lap_data_csv_content (lap_data : List LapMsg) (record_data : List RecordMsg) :
    Except Unit String :=
  match lapRowsFrom 1 lap_data record_data with
  | .error u => .error u
  | .ok rows => .ok (lapHeader ++ "\n" ++ String.join (rows.map (fun r => renderLapRow r ++ "\n")))

/-- The success payload of the parse-lap-data endpoint: CSV text and lap count. -/
def parse_lap_data (lap_data : List LapMsg) (record_data : List RecordMsg) :
    Except Unit (String × ℕ) :=
  match create_lap_data_csv_content lap_data record_data with
  | .error u => .error u
  | .ok csv => .ok (csv, lap_data.length)

/-- One output row of the structure CSV. -/
structure StepRow where
  step_number : ℕ
  step_name : String
  duration_seconds : Cell
  target_zone_low : Cell
  target_zone_high : Cell
  target_zone_name : String
  target_pace_low : String
  target_pace_high : String
  step_type : String
  notes : String
deriving DecidableEq

/-- Truthiness test of pace_low_sec / pace_high_sec: None and 0 are falsy. -/
def paceStrOfSec (sec : Option ℤ) : String :=
  match sec with
  | some s => if s = 0 then "" else (pace_seconds_to_string (some s)).getD ""
  | none => ""

/-- One iteration of the step loop in create_structure_csv_content. -/
def structRow (step : StepMsg) (idx : ℕ) : StepRow :=
  let duration_type := pyGetD step.duration_type ""
  let duration_time := pyGet step.duration_time
  let intensity := pyGetD step.intensity ""
  let hr_low := convert_hr (pyGet step.custom_target_heart_rate_low)
  let hr_high := convert_hr (pyGet step.custom_target_heart_rate_high)
  let pace_low_sec := speed_to_pace_seconds (pyGet step.custom_target_speed_high)
  let pace_high_sec := speed_to_pace_seconds (pyGet step.custom_target_speed_low)
  let durationTruthy : Bool :=
    match duration_time with
    | some t => decide (t ≠ 0)
    | none => false
  { step_number := idx
    step_name := (pyGetD step.wkt_step_name "").getD ""
    duration_seconds :=
      if duration_type = some "time" ∧ durationTruthy = true then
        match duration_time with
        | some t => iCell (some (pyTrunc t))
        | none => Cell.empty
      else Cell.empty
    target_zone_low :=
      match hr_low with
      | some v => .num v
      | none => .empty
    target_zone_high :=
      match hr_high with
      | some v => .num v
      | none => .empty
    target_zone_name := get_zone_name hr_low hr_high
    target_pace_low := paceStrOfSec pace_low_sec
    target_pace_high := paceStrOfSec pace_high_sec
    step_type :=
      if duration_type = some "repeat_until_steps_cmplt" then "repeat"
      else if intensity = some "warmup" then "warmup"
      else if intensity = some "cooldown" then "cooldown"
      else if intensity = some "rest" then "rest"
      else if intensity = some "active" then "active"
      else if intensity = some "recovery" then "recovery"
      else intensity.getD ""
    notes :=
      if duration_type = some "time" ∧ durationTruthy = true then ""
      else if duration_type = some "open" then "Open duration (until lap button pressed)"
      else if duration_type = some "repeat_until_steps_cmplt" then
        "Repeat previous " ++ optIntStr (pyGetD step.repeat_steps 0) ++
          " step(s) until step " ++ optIntStr (pyGetD step.duration_step 0) ++ " completes"
      else "" }

/-- The step loop of create_structure_csv_content, carrying the enumerate
counter. -/
def structRowsFrom : ℕ → List StepMsg → List StepRow
  | _, [] => []
  | i, s :: ss => structRow s i :: structRowsFrom (i + 1) ss

/-- Header line written by the structure DictWriter. -/
def structHeader : String :=
  "step_number,step_name,duration_seconds,target_zone_low,target_zone_high,target_zone_name,target_pace_low,target_pace_high,step_type,notes"

/-- Rendering of one step row to a CSV line. -/
def renderStepRow (r : StepRow) : String :=
  toString r.step_number ++ "," ++ r.step_name ++ "," ++ r.duration_seconds.render ++ "," ++
  r.target_zone_low.render ++ "," ++ r.target_zone_high.render ++ "," ++
  r.target_zone_name ++ "," ++ r.target_pace_low ++ "," ++ r.target_pace_high ++ "," ++
  r.step_type ++ "," ++ r.notes

/-- create_structure_csv_content from main.py: total, never raises. -/
def create_structure_csv_content (workout_steps : List StepMsg) : String :=
  structHeader ++ "\n" ++
    String.join ((structRowsFrom 1 workout_steps).map (fun r => renderStepRow r ++ "\n"))

/-- The success payload of the parse-structure endpoint: CSV text and step count. -/
def parse_structure (workout_steps : List StepMsg) : String × ℕ :=
  (create_structure_csv_content workout_steps, workout_steps.length)

/-- Spec-side view of one qualifying drift sample: both keys present, the
timestamp non-null and inside the half-open window, the heart rate non-null. -/
def qualSample (s e : ℚ) (r : RecordMsg) : Option (ℚ × ℚ) :=
  match r.timestamp, r.heart_rate with
  | some (some ts), some hrv =>
    if s ≤ ts ∧ ts < e then
      match hrv with
      | some hr => some (ts, hr)
      | none => none
    else none
  | _, _ => none

/-- Spec-side list of qualifying samples of a lap window, in record order. -/
def qualSamples (records : List RecordMsg) (s e : ℚ) : List (ℚ × ℚ) :=
  records.filterMap (qualSample s e)

/-- The heart-rate values of the qualifying samples of a window. -/
def qualHRs (records : List RecordMsg) (lap_start duration : ℚ) : List ℚ :=
  (qualSamples records lap_start (lap_start + duration)).map Prod.snd

/-- First half of the floor-midpoint split of the qualifying heart rates. -/
def firstHalfHR (records : List RecordMsg) (lap_start duration : ℚ) : List ℚ :=
  let l := qualHRs records lap_start duration
  l.take (l.length / 2)

/-- Second half of the floor-midpoint split of the qualifying heart rates. -/
def secondHalfHR (records : List RecordMsg) (lap_start duration : ℚ) : List ℚ :=
  let l := qualHRs records lap_start duration
  l.drop (l.length / 2)

/-- The absence condition of the drift claim: short lap, fewer than ten
qualifying samples, an empty half, or a zero first-half mean. -/
def driftAbsent (records : List RecordMsg) (lap_start duration : ℚ) : Prop :=
  duration < 300 ∨ (qualHRs records lap_start duration).length < 10 ∨
    firstHalfHR records lap_start duration = [] ∨
    secondHalfHR records lap_start duration = [] ∨
    mean (firstHalfHR records lap_start duration) = 0

instance (records : List RecordMsg) (lap_start duration : ℚ) :
    Decidable (driftAbsent records lap_start duration) := by
  unfold driftAbsent; infer_instance

/-- The drift value of the claim: relative change of the half means, as a
percentage rounded to two decimals. -/
def driftValue (records : List RecordMsg) (lap_start duration : ℚ) : ℚ :=
  pyRound2 ((mean (secondHalfHR records lap_start duration) -
      mean (firstHalfHR records lap_start duration)) /
      mean (firstHalfHR records lap_start duration) * 100)

/-- A record that cannot make the drift filter raise: if its timestamp key
holds a null, its heart_rate key is missing. -/
def cleanRec (r : RecordMsg) : Prop := r.timestamp ≠ some none ∨ r.heart_rate = none

instance (r : RecordMsg) : Decidable (cleanRec r) := by
  unfold cleanRec; infer_instance

/-- Modelled from the spec, section 4.2: the zone table as the claim words
it — bucket by the high bound with two combined-label overrides. -/
def zoneSpec (lo hi : ℚ) : String :=
  if 130 < hi ∧ hi ≤ 145 ∧ lo < 130 then "Zone 1: Recovery - Zone 2: Aerobic"
  else if 145 < hi ∧ hi ≤ 160 ∧ lo < 145 then "Zone 2: Aerobic - Zone 3: Tempo"
  else if hi ≤ 130 then "Zone 1: Recovery"
  else if hi ≤ 145 then "Zone 2: Aerobic"
  else if hi ≤ 160 then "Zone 3: Tempo"
  else if hi ≤ 175 then "Zone 4: Threshold"
  else "Zone 5: VO2 Max"

/-! Support lemmas. -/

lemma mean_le_of_forall_le (l : List ℚ) (c : ℚ) (hne : l ≠ []) (h : ∀ x ∈ l, x ≤ c) :
    mean l ≤ c := by
  have hlen : 0 < (l.length : ℚ) := by
    have : 0 < l.length := List.length_pos.mpr hne
    exact_mod_cast this
  have hsum : l.sum ≤ l.length • c := List.sum_le_card_nsmul l c h
  rw [nsmul_eq_mul] at hsum
  rw [mean, div_le_iff hlen]
  linarith

lemma le_mean_of_forall_le (l : List ℚ) (c : ℚ) (hne : l ≠ []) (h : ∀ x ∈ l, c ≤ x) :
    c ≤ mean l := by
  have hlen : 0 < (l.length : ℚ) := by
    have : 0 < l.length := List.length_pos.mpr hne
    exact_mod_cast this
  have hsum : l.length • c ≤ l.sum := List.card_nsmul_le_sum l c h
  rw [nsmul_eq_mul] at hsum
  rw [mean, le_div_iff hlen]
  linarith

lemma rat_int_add_one_le (a b : ℚ) (ha : a.den = 1) (hb : b.den = 1) (hab : a < b) :
    a + 1 ≤ b := by
  have ha2 : (a.num : ℚ) = a := by
    rw [← Rat.num_div_den a, ha]
    norm_num
  have hb2 : (b.num : ℚ) = b := by
    rw [← Rat.num_div_den b, hb]
    norm_num
  have hnum : a.num < b.num := by
    rw [← ha2, ← hb2] at hab
    exact_mod_cast hab
  have h1 : a.num + 1 ≤ b.num := hnum
  have h2 : ((a.num + 1 : ℤ) : ℚ) ≤ ((b.num : ℤ) : ℚ) := by exact_mod_cast h1
  push_cast at h2
  rw [ha2, hb2] at h2
  exact h2

lemma pyRound_pos (q : ℚ) (h : 1 / 2 < q) : 0 < pyRound q := by
  unfold pyRound
  have hf0 : 0 ≤ ⌊q⌋ := by
    have : (0 : ℚ) ≤ q := by linarith
    exact_mod_cast Int.floor_nonneg.mpr this
  by_cases hlt : q - (⌊q⌋ : ℚ) < 1 / 2
  · simp only [if_pos hlt]
    have h0 : (0 : ℚ) < (⌊q⌋ : ℚ) := by linarith
    exact_mod_cast h0
  · simp only [if_neg hlt]
    by_cases hgt : 1 / 2 < q - (⌊q⌋ : ℚ)
    · simp only [if_pos hgt]
      omega
    · simp only [if_neg hgt]
      by_cases hev : ⌊q⌋ % 2 = 0
      · simp only [if_pos hev]
        have heq : q - (⌊q⌋ : ℚ) = 1 / 2 := by linarith
        by_contra hc
        push_neg at hc
        have h0 : ⌊q⌋ = 0 := by omega
        rw [h0] at heq
        simp at heq
        linarith
      · simp only [if_neg hev]
        omega

lemma pyRound2_pos (q : ℚ) (h : 1 / 200 < q) : 0 < pyRound2 q := by
  unfold pyRound2
  have : 0 < pyRound (q * 100) := pyRound_pos _ (by linarith)
  positivity

lemma pyMod_nonneg (x y : ℚ) (hy : 0 < y) : 0 ≤ pyMod x y := by
  unfold pyMod
  have := Int.floor_le (x / y)
  have h2 : (⌊x / y⌋ : ℚ) * y ≤ x / y * y := by
    exact mul_le_mul_of_nonneg_right this (le_of_lt hy)
  rw [div_mul_cancel₀ x (ne_of_gt hy)] at h2
  linarith

lemma pyMod_lt (x y : ℚ) (hy : 0 < y) : pyMod x y < y := by
  unfold pyMod
  have := Int.lt_floor_add_one (x / y)
  have h2 : x / y * y < ((⌊x / y⌋ : ℚ) + 1) * y := by
    exact mul_lt_mul_of_pos_right this hy
  rw [div_mul_cancel₀ x (ne_of_gt hy)] at h2
  linarith

lemma pyTrunc_eq_floor (q : ℚ) (h : 0 ≤ q) : pyTrunc q = ⌊q⌋ := by
  unfold pyTrunc
  exact if_pos h

lemma append_colon_ne_empty (a b : String) : a ++ ":" ++ b ≠ "" := by
  intro hc
  have hlen : (a ++ ":" ++ b).length = 0 := by rw [hc]; rfl
  rw [String.length_append, String.length_append] at hlen
  have : (":" : String).length = 1 := rfl
  omega

/-! Claim theorems. -/

/-- The failing input of claim C1: a lap whose avg_fractional_cadence key is
present with a null value while avg_running_cadence is a positive number. -/
def bugLap : LapMsg :=
  { avg_running_cadence := some (some 80), avg_fractional_cadence := some none }

/-- C1: the claim says both summarizers always return a complete CSV string,
rendering missing or null inputs as empty cells, in particular when
avg_fractional_cadence is null while avg_running_cadence is positive.  The
code contradicts this central robustness contract: on exactly that input the
cadence derivation adds an integer to a null and raises a TypeError, so the
lap summarizer propagates an exception instead of returning a CSV. -/
theorem C1_lap_summarizer_raises_on_null_fractional_cadence :
    create_lap_data_csv_content [bugLap] [] = .error () := by
  rfl

/-- C3: get_zone_name returns the empty string when either bound is absent,
and otherwise agrees with the spec-worded bucket table (breakpoints 130,
145, 160, 175 on the high bound, with exactly the two combined labels), in
particular on the four quoted concrete cases. -/
theorem C3_zone_classifier :
    (∀ hi, get_zone_name none hi = "") ∧
    (∀ lo, get_zone_name lo none = "") ∧
    (∀ lo hi : ℚ, get_zone_name (some lo) (some hi) = zoneSpec lo hi) ∧
    get_zone_name (some 100) (some 120) = "Zone 1: Recovery" ∧
    get_zone_name (some 125) (some 140) = "Zone 1: Recovery - Zone 2: Aerobic" ∧
    get_zone_name (some 150) (some 155) = "Zone 3: Tempo" ∧
    get_zone_name (some 180) (some 200) = "Zone 5: VO2 Max" := by
  refine ⟨fun hi => ?_, fun lo => ?_, fun lo hi => ?_, by decide, by decide, by decide, by decide⟩
  · simp [get_zone_name]
  · cases lo <;> simp [get_zone_name]
  · simp only [get_zone_name, zoneSpec]
    split_ifs <;>
      first
        | rfl
        | (exfalso; (try casesm* _ ∧ _); linarith)
        | (exfalso; simp_all)

/-- C7: a workout step whose duration_type is repeat_until_steps_cmplt gets
step_type "repeat" and the formatted repeat note (with repeat_steps 3 and
duration_step 2 the exact quoted sentence), and every step contributes
exactly one output row, so repeat blocks are never unrolled. -/
theorem C7_repeat_step :
    (∀ (step : StepMsg) (i : ℕ),
      pyGetD step.duration_type "" = some "repeat_until_steps_cmplt" →
        (structRow step i).step_type = "repeat" ∧
        (structRow step i).notes =
          "Repeat previous " ++ optIntStr (pyGetD step.repeat_steps 0) ++
            " step(s) until step " ++ optIntStr (pyGetD step.duration_step 0) ++ " completes") ∧
    (∀ (step : StepMsg) (i : ℕ),
      pyGetD step.duration_type "" = some "repeat_until_steps_cmplt" →
      pyGetD step.repeat_steps 0 = some 3 →
      pyGetD step.duration_step 0 = some 2 →
        (structRow step i).step_type = "repeat" ∧
        (structRow step i).notes = "Repeat previous 3 step(s) until step 2 completes") ∧
    (∀ (steps : List StepMsg) (k : ℕ), (structRowsFrom k steps).length = steps.length) := by
  have hmain : ∀ (step : StepMsg) (i : ℕ),
      pyGetD step.duration_type "" = some "repeat_until_steps_cmplt" →
        (structRow step i).step_type = "repeat" ∧
        (structRow step i).notes =
          "Repeat previous " ++ optIntStr (pyGetD step.repeat_steps 0) ++
            " step(s) until step " ++ optIntStr (pyGetD step.duration_step 0) ++ " completes" := by
    intro step i h
    unfold structRow
    simp only [h]
    constructor
    · simp
    · simp
  refine ⟨hmain, fun step i h h3 h2 => ?_, fun steps => ?_⟩
  · obtain ⟨ht, hn⟩ := hmain step i h
    refine ⟨ht, ?_⟩
    rw [hn, h3, h2]
    rfl
  · induction steps with
    | nil => intro k; rfl
    | cons s ss ih =>
      intro k
      simp only [structRowsFrom, List.length_cons, ih]

/-- Witness step for the C7 theorem. -/
def wStepRepeat : StepMsg :=
  { duration_type := some (some "repeat_until_steps_cmplt")
    repeat_steps := some (some 3)
    duration_step := some (some 2) }

/-- Witness for C7 at the concrete quoted step. -/
theorem C7_repeat_step_witness :
    (structRow wStepRepeat 1).step_type = "repeat" ∧
    (structRow wStepRepeat 1).notes = "Repeat previous 3 step(s) until step 2 completes" :=
  C7_repeat_step.2.1 wStepRepeat 1 rfl rfl rfl

lemma structRow_pace_low (step : StepMsg) (i : ℕ) :
    (structRow step i).target_pace_low =
      paceStrOfSec (speed_to_pace_seconds (pyGet step.custom_target_speed_high)) := rfl

lemma structRow_pace_high (step : StepMsg) (i : ℕ) :
    (structRow step i).target_pace_high =
      paceStrOfSec (speed_to_pace_seconds (pyGet step.custom_target_speed_low)) := rfl

lemma paceStrOfSec_of_round (sp : ℚ) (hsp : sp ≠ 0) (hr : pyRound (1000 / sp) ≠ 0) :
    paceStrOfSec (speed_to_pace_seconds (some sp)) =
      toString (Int.fdiv (pyRound (1000 / sp)) 60) ++ ":" ++
        pad2 (Int.emod (pyRound (1000 / sp)) 60) := by
  simp only [speed_to_pace_seconds, if_neg hsp, paceStrOfSec, if_neg hr,
    pace_seconds_to_string, Option.getD_some]

lemma paceStrOfSec_zero_round (sp : ℚ) (hr : pyRound (1000 / sp) = 0) :
    paceStrOfSec (speed_to_pace_seconds (some sp)) = "" := by
  by_cases hsp : sp = 0
  · simp only [speed_to_pace_seconds, if_pos hsp, paceStrOfSec]
  · simp only [speed_to_pace_seconds, if_neg hsp, paceStrOfSec, if_pos hr]

/-- The counterexample step for claim C5: a present, nonzero (very large)
custom_target_speed_high. -/
def stepCexC5 : StepMsg := { custom_target_speed_high := some (some 4000) }

/-- C5 counterexample: the claim says every present nonzero speed yields the
M:SS rendering of round(1000/speed), which at speed 4000 is the string 0:00,
but the code blanks the cell because the rounded pace 0 is falsy. -/
theorem C5_counterexample :
    (structRow stepCexC5 1).target_pace_low = "" ∧
    pyGet stepCexC5.custom_target_speed_high = some 4000 ∧
    (4000 : ℚ) ≠ 0 ∧
    toString (Int.fdiv (pyRound (1000 / (4000 : ℚ))) 60) ++ ":" ++
        pad2 (Int.emod (pyRound (1000 / (4000 : ℚ))) 60) = "0:00" ∧
    ("" : String) ≠ "0:00" := by
  refine ⟨by with_unfolding_all rfl, rfl, by norm_num, by with_unfolding_all rfl, by decide⟩

/-- C5 as amended: target_pace_low derives from custom_target_speed_high and
target_pace_high from custom_target_speed_low via the rounding conversion
round(1000/speed) and the M:SS split; an absent or zero speed — or a speed
whose rounded seconds-per-km is 0, which Python truthiness also blanks —
yields an empty pace cell. -/
theorem C5_step_pace_inversion :
    (∀ (step : StepMsg) (i : ℕ) (sp : ℚ),
      pyGet step.custom_target_speed_high = some sp → sp ≠ 0 → pyRound (1000 / sp) ≠ 0 →
        (structRow step i).target_pace_low =
          toString (Int.fdiv (pyRound (1000 / sp)) 60) ++ ":" ++
            pad2 (Int.emod (pyRound (1000 / sp)) 60)) ∧
    (∀ (step : StepMsg) (i : ℕ),
      pyGet step.custom_target_speed_high = none ∨ pyGet step.custom_target_speed_high = some 0 →
        (structRow step i).target_pace_low = "") ∧
    (∀ (step : StepMsg) (i : ℕ) (sp : ℚ),
      pyGet step.custom_target_speed_high = some sp → pyRound (1000 / sp) = 0 →
        (structRow step i).target_pace_low = "") ∧
    (∀ (step : StepMsg) (i : ℕ) (sp : ℚ),
      pyGet step.custom_target_speed_low = some sp → sp ≠ 0 → pyRound (1000 / sp) ≠ 0 →
        (structRow step i).target_pace_high =
          toString (Int.fdiv (pyRound (1000 / sp)) 60) ++ ":" ++
            pad2 (Int.emod (pyRound (1000 / sp)) 60)) ∧
    (∀ (step : StepMsg) (i : ℕ),
      pyGet step.custom_target_speed_low = none ∨ pyGet step.custom_target_speed_low = some 0 →
        (structRow step i).target_pace_high = "") ∧
    (∀ (step : StepMsg) (i : ℕ) (sp : ℚ),
      pyGet step.custom_target_speed_low = some sp → pyRound (1000 / sp) = 0 →
        (structRow step i).target_pace_high = "") := by
  refine ⟨?_, ?_, ?_, ?_, ?_, ?_⟩
  · intro step i sp h hsp hr
    rw [structRow_pace_low, h, paceStrOfSec_of_round sp hsp hr]
  · intro step i h
    rw [structRow_pace_low]
    rcases h with h | h
    · rw [h]; rfl
    · rw [h]; rfl
  · intro step i sp h hr
    rw [structRow_pace_low, h, paceStrOfSec_zero_round sp hr]
  · intro step i sp h hsp hr
    rw [structRow_pace_high, h, paceStrOfSec_of_round sp hsp hr]
  · intro step i h
    rw [structRow_pace_high]
    rcases h with h | h
    · rw [h]; rfl
    · rw [h]; rfl
  · intro step i sp h hr
    rw [structRow_pace_high, h, paceStrOfSec_zero_round sp hr]

/-- Witness step for C5: speeds 3 m/s (high) and 5/2 m/s (low). -/
def wStepPace : StepMsg :=
  { custom_target_speed_low := some (some (5 / 2)), custom_target_speed_high := some (some 3) }

/-- Witness for C5 at the concrete step: 3 m/s rounds to 333 s/km = 5:33,
5/2 m/s to 400 s/km = 6:40. -/
theorem C5_step_pace_inversion_witness :
    (structRow wStepPace 1).target_pace_low =
      toString (Int.fdiv (pyRound (1000 / (3 : ℚ))) 60) ++ ":" ++
        pad2 (Int.emod (pyRound (1000 / (3 : ℚ))) 60) ∧
    (structRow wStepPace 1).target_pace_high =
      toString (Int.fdiv (pyRound (1000 / (5 / 2 : ℚ))) 60) ++ ":" ++
        pad2 (Int.emod (pyRound (1000 / (5 / 2 : ℚ))) 60) :=
  ⟨C5_step_pace_inversion.1 wStepPace 1 3 rfl (by norm_num) (by with_unfolding_all decide),
   C5_step_pace_inversion.2.2.2.1 wStepPace 1 (5 / 2) rfl (by norm_num)
     (by with_unfolding_all decide)⟩

lemma lapRow_ok (lap : LapMsg) (recs : List RecordMsg) (i : ℕ) (row : LapRow)
    (h : lapRow lap recs i = .ok row) :
    ∃ cad drift, lapCadCell lap = .ok cad ∧ lapDrift lap recs = .ok drift ∧
      row = mkLapRow lap i cad drift := by
  unfold lapRow at h
  cases hc : lapCadCell lap with
  | error u => rw [hc] at h; simp at h
  | ok cad =>
    rw [hc] at h
    cases hd : lapDrift lap recs with
    | error u => rw [hd] at h; simp at h
    | ok drift =>
      rw [hd] at h
      simp only [Except.ok.injEq] at h
      exact ⟨cad, drift, rfl, rfl, h.symm⟩

/-- The counterexample lap for claim C8: avg_power present with value 0. -/
def cexLapC8 : LapMsg := { avg_power := some (some 0) }

/-- C8 counterexample: the claim says the avg_power cell is empty exactly
when the field is absent and otherwise carries the value unchanged; but a
present avg_power of 0 is falsy in Python and is rendered as an empty cell. -/
theorem C8_counterexample :
    lapRow cexLapC8 [] 1 = .ok (mkLapRow cexLapC8 1 Cell.empty none) ∧
    (mkLapRow cexLapC8 1 Cell.empty none).avg_power = Cell.empty ∧
    pyGet cexLapC8.avg_power = some 0 ∧
    Cell.empty ≠ Cell.num 0 := by
  refine ⟨rfl, rfl, rfl, by decide⟩

/-- C8 as amended: duration_seconds, distance_meters, avg_heart_rate,
max_heart_rate and avg_power pass through unchanged whenever present and
nonzero, and are empty exactly when absent, null, or zero (Python
truthiness); a lap whose speed and power fields are absent still yields a
row with its lap_number and empty avg_pace / avg_power cells. -/
theorem C8_lap_passthrough :
    ∀ (lap : LapMsg) (recs : List RecordMsg) (i : ℕ) (row : LapRow),
      lapRow lap recs i = .ok row →
        (∀ v : ℚ, v ≠ 0 →
          (pyGet lap.total_elapsed_time = some v → row.duration_seconds = Cell.num v) ∧
          (pyGet lap.total_distance = some v → row.distance_meters = Cell.num v) ∧
          (pyGet lap.avg_heart_rate = some v → row.avg_heart_rate = Cell.num v) ∧
          (pyGet lap.max_heart_rate = some v → row.max_heart_rate = Cell.num v) ∧
          (pyGet lap.avg_power = some v → row.avg_power = Cell.num v)) ∧
        (∀ v : Option ℚ, v = none ∨ v = some 0 →
          (pyGet lap.total_elapsed_time = v → row.duration_seconds = Cell.empty) ∧
          (pyGet lap.total_distance = v → row.distance_meters = Cell.empty) ∧
          (pyGet lap.avg_heart_rate = v → row.avg_heart_rate = Cell.empty) ∧
          (pyGet lap.max_heart_rate = v → row.max_heart_rate = Cell.empty) ∧
          (pyGet lap.avg_power = v → row.avg_power = Cell.empty)) ∧
        row.lap_number = i ∧
        (pyGet lap.enhanced_avg_speed = none → pyGet lap.avg_speed = none →
         pyGet lap.avg_power = none →
          row.avg_pace = Cell.empty ∧ row.avg_power = Cell.empty) := by
  intro lap recs i row h
  obtain ⟨cad, drift, hc, hd, hrow⟩ := lapRow_ok lap recs i row h
  subst hrow
  refine ⟨?_, ?_, rfl, ?_⟩
  · intro v hv
    refine ⟨?_, ?_, ?_, ?_, ?_⟩ <;> intro hf <;>
      simp only [mkLapRow, qCell, hf, if_neg hv]
  · intro v hcase
    refine ⟨?_, ?_, ?_, ?_, ?_⟩ <;> intro hf <;>
      rcases hcase with h0 | h0 <;> subst h0 <;> simp only [mkLapRow, qCell, hf, eq_self_iff_true, if_true]
  · intro h1 h2 h3
    constructor
    · simp only [mkLapRow, lapPace, pyOrQ, h1, h2, sCell]
    · simp only [mkLapRow, qCell, h3]

/-- Witness lap for C8: everything absent. -/
def wLapEmpty : LapMsg := {}

/-- Witness for C8 at the all-absent lap: the row is still emitted, numbered,
with empty pace and power cells. -/
theorem C8_lap_passthrough_witness :
    (mkLapRow wLapEmpty 1 Cell.empty none).avg_pace = Cell.empty ∧
    (mkLapRow wLapEmpty 1 Cell.empty none).avg_power = Cell.empty ∧
    (mkLapRow wLapEmpty 1 Cell.empty none).lap_number = 1 ∧
    (mkLapRow wLapEmpty 1 Cell.empty none).duration_seconds = Cell.empty := by
  have h := C8_lap_passthrough wLapEmpty [] 1 (mkLapRow wLapEmpty 1 Cell.empty none) rfl
  obtain ⟨hp, hq⟩ := h.2.2.2 rfl rfl rfl
  exact ⟨hp, hq, h.2.2.1, (h.2.1 none (Or.inl rfl)).1 rfl⟩

/-- C10: a present zero in total_elapsed_time, total_distance,
avg_heart_rate, max_heart_rate, avg_power, the chosen cadence or the chosen
speed is rendered as an empty cell (indistinguishable from absent), while a
computed drift of exactly 0 is rendered as the number 0, not as empty,
because only hr_drift is tested against null. -/
theorem C10_zero_blanking :
    ∀ (lap : LapMsg) (recs : List RecordMsg) (i : ℕ) (row : LapRow),
      lapRow lap recs i = .ok row →
        (pyGet lap.total_elapsed_time = some 0 → row.duration_seconds = Cell.empty) ∧
        (pyGet lap.total_distance = some 0 → row.distance_meters = Cell.empty) ∧
        (pyGet lap.avg_heart_rate = some 0 → row.avg_heart_rate = Cell.empty) ∧
        (pyGet lap.max_heart_rate = some 0 → row.max_heart_rate = Cell.empty) ∧
        (pyGet lap.avg_power = some 0 → row.avg_power = Cell.empty) ∧
        (pyOrQ (pyGet lap.avg_running_cadence) (pyGet lap.avg_cadence) = some 0 →
          row.avg_cadence = Cell.empty) ∧
        (pyOrQ (pyGet lap.enhanced_avg_speed) (pyGet lap.avg_speed) = some 0 →
          row.avg_pace = Cell.empty) ∧
        (∀ st d : ℚ, pyGet lap.start_time = some st → pyGet lap.total_elapsed_time = some d →
          d ≠ 0 → calculate_hr_drift recs st d = .ok (some 0) →
            row.hr_drift = Cell.num 0 ∧ Cell.num 0 ≠ Cell.empty) := by
  intro lap recs i row h
  obtain ⟨cad, drift, hc, hd, hrow⟩ := lapRow_ok lap recs i row h
  subst hrow
  refine ⟨?_, ?_, ?_, ?_, ?_, ?_, ?_, ?_⟩
  · intro hf; simp only [mkLapRow, qCell, hf, eq_self_iff_true, if_true]
  · intro hf; simp only [mkLapRow, qCell, hf, eq_self_iff_true, if_true]
  · intro hf; simp only [mkLapRow, qCell, hf, eq_self_iff_true, if_true]
  · intro hf; simp only [mkLapRow, qCell, hf, eq_self_iff_true, if_true]
  · intro hf; simp only [mkLapRow, qCell, hf, eq_self_iff_true, if_true]
  · intro hf
    unfold lapCadCell at hc
    rw [hf] at hc
    simp only [eq_self_iff_true, if_true, Except.ok.injEq] at hc
    rw [← hc]
    rfl
  · intro hf
    simp only [mkLapRow, lapPace, hf, lt_irrefl, if_false, sCell]
  · intro st d hst hdur hdne hdrift
    unfold lapDrift at hd
    simp only [hst, hdur] at hd
    rw [if_neg hdne, hdrift] at hd
    simp only [Except.ok.injEq] at hd
    subst hd
    exact ⟨rfl, by decide⟩

/-- Witness lap and records for C10: a 300-second lap over ten constant
heart-rate samples, whose drift is exactly 0 and is rendered as 0. -/
def wLapDrift : LapMsg :=
  { start_time := some (some 0), total_elapsed_time := some (some 300),
    total_distance := some (some 0), avg_heart_rate := some (some 0) }

/-- The ten constant-heart-rate records of the C10 witness. -/
def wRecsConst : List RecordMsg :=
  (List.range 10).map (fun k => { timestamp := some (some (k : ℚ)), heart_rate := some (some 100) })

/-- Witness for C10: zero distance and heart rate blank out, zero drift
does not. -/
theorem C10_zero_blanking_witness :
    (mkLapRow wLapDrift wRecsConst.length Cell.empty (some 0)).distance_meters = Cell.empty ∧
    (mkLapRow wLapDrift wRecsConst.length Cell.empty (some 0)).avg_heart_rate = Cell.empty ∧
    (mkLapRow wLapDrift wRecsConst.length Cell.empty (some 0)).hr_drift = Cell.num 0 := by
  have h := C10_zero_blanking wLapDrift wRecsConst wRecsConst.length
    (mkLapRow wLapDrift wRecsConst.length Cell.empty (some 0)) (by with_unfolding_all rfl)
  refine ⟨h.2.1 rfl, h.2.2.1 rfl, ?_⟩
  exact (h.2.2.2.2.2.2.2 0 300 rfl rfl (by norm_num) (by with_unfolding_all rfl)).1

lemma lapPace_pos (lap : LapMsg) (sp : ℚ)
    (h : pyOrQ (pyGet lap.enhanced_avg_speed) (pyGet lap.avg_speed) = some sp) (hsp : 0 < sp) :
    lapPace lap = some (toString ⌊(1000 / sp) / 60⌋ ++ ":" ++ pad2 ⌊pyMod (1000 / sp) 60⌋) := by
  have hkm : 1 / sp * 1000 = 1000 / sp := by ring
  have hne : ¬ (1 / sp = 0) := by positivity
  have hfloor := pyTrunc_eq_floor (pyMod (1000 / sp) 60) (pyMod_nonneg (1000 / sp) 60 (by norm_num))
  simp only [lapPace, h, hsp, if_true, seconds_to_pace, hne, if_false, hkm, hfloor]

/-- C4: the lap avg_pace derives from enhanced_avg_speed with fallback to
avg_speed; a present positive chosen speed yields the truncating conversion
(floor of 1000/speed over 60 for the unpadded minutes, floor of the modulo
for the zero-padded seconds), anything else yields an empty cell; and at
speed 5000/453 the truncating lap path gives 1:30 where the rounding step
path gives 1:31, exhibiting the asymmetry. -/
theorem C4_lap_pace_truncation :
    (∀ (lap : LapMsg) (recs : List RecordMsg) (i : ℕ) (row : LapRow),
      lapRow lap recs i = .ok row →
        (∀ sp : ℚ,
          pyOrQ (pyGet lap.enhanced_avg_speed) (pyGet lap.avg_speed) = some sp → 0 < sp →
            row.avg_pace =
              Cell.str (toString ⌊(1000 / sp) / 60⌋ ++ ":" ++ pad2 ⌊pyMod (1000 / sp) 60⌋)) ∧
        (pyOrQ (pyGet lap.enhanced_avg_speed) (pyGet lap.avg_speed) = none →
          row.avg_pace = Cell.empty) ∧
        (∀ sp : ℚ,
          pyOrQ (pyGet lap.enhanced_avg_speed) (pyGet lap.avg_speed) = some sp → ¬ 0 < sp →
            row.avg_pace = Cell.empty)) ∧
    seconds_to_pace (some (1 / (5000 / 453 : ℚ))) = some "1:30" ∧
    pace_seconds_to_string (speed_to_pace_seconds (some (5000 / 453 : ℚ))) = some "1:31" := by
  refine ⟨?_, by with_unfolding_all rfl, by with_unfolding_all rfl⟩
  intro lap recs i row h
  obtain ⟨cad, drift, hc, hd, hrow⟩ := lapRow_ok lap recs i row h
  subst hrow
  refine ⟨?_, ?_, ?_⟩
  · intro sp hsp hpos
    have h1 : (mkLapRow lap i cad drift).avg_pace = sCell (lapPace lap) := rfl
    rw [h1, lapPace_pos lap sp hsp hpos]
    have hne2 := append_colon_ne_empty (toString ⌊1000 / sp / 60⌋) (pad2 ⌊pyMod (1000 / sp) 60⌋)
    simp only [sCell, hne2, if_false]
  · intro hnone
    have h1 : (mkLapRow lap i cad drift).avg_pace = sCell (lapPace lap) := rfl
    rw [h1]
    simp only [lapPace, hnone, sCell]
  · intro sp hsp hneg
    have h1 : (mkLapRow lap i cad drift).avg_pace = sCell (lapPace lap) := rfl
    rw [h1]
    simp only [lapPace, hsp, hneg, if_false, sCell]

/-- Witness lap for C4: enhanced average speed 4 m/s. -/
def wLapPace : LapMsg := { enhanced_avg_speed := some (some 4) }

/-- Witness for C4: 4 m/s yields the truncated pace cell 4:10. -/
theorem C4_lap_pace_truncation_witness :
    (mkLapRow wLapPace 1 Cell.empty none).avg_pace =
      Cell.str (toString ⌊(1000 / (4 : ℚ)) / 60⌋ ++ ":" ++ pad2 ⌊pyMod (1000 / (4 : ℚ)) 60⌋) :=
  (C4_lap_pace_truncation.1 wLapPace [] 1 (mkLapRow wLapPace 1 Cell.empty none)
      (by with_unfolding_all rfl)).1 4 rfl (by norm_num)

lemma lapRow_number (lap : LapMsg) (recs : List RecordMsg) (i : ℕ) (row : LapRow)
    (h : lapRow lap recs i = .ok row) : row.lap_number = i := by
  obtain ⟨cad, drift, hc, hd, hrow⟩ := lapRow_ok lap recs i row h
  subst hrow
  rfl

lemma lapRowsFrom_spec :
    ∀ (laps : List LapMsg) (k : ℕ) (recs : List RecordMsg) (rows : List LapRow),
      lapRowsFrom k laps recs = .ok rows →
        rows.length = laps.length ∧
        ∀ i (hi : i < laps.length) (hri : i < rows.length),
          lapRow (laps.get ⟨i, hi⟩) recs (k + i) = .ok (rows.get ⟨i, hri⟩) := by
  intro laps
  induction laps with
  | nil =>
    intro k recs rows h
    simp only [lapRowsFrom, Except.ok.injEq] at h
    subst h
    exact ⟨rfl, fun i hi => absurd hi (by simp)⟩
  | cons l ls ih =>
    intro k recs rows h
    unfold lapRowsFrom at h
    cases hr : lapRow l recs k with
    | error u => rw [hr] at h; simp at h
    | ok r =>
      rw [hr] at h
      cases hrest : lapRowsFrom (k + 1) ls recs with
      | error u => rw [hrest] at h; simp at h
      | ok rest =>
        rw [hrest] at h
        simp only [Except.ok.injEq] at h
        subst h
        obtain ⟨hlen, hidx⟩ := ih (k + 1) recs rest hrest
        refine ⟨by simp [hlen], ?_⟩
        intro i hi hri
        cases i with
        | zero => simpa using hr
        | succ n =>
          have hn : n < ls.length := by simpa using hi
          have hrn : n < rest.length := by simpa using hri
          have := hidx n hn hrn
          have hk : k + (n + 1) = k + 1 + n := by omega
          rw [hk]
          simpa using this

lemma structRowsFrom_length : ∀ (steps : List StepMsg) (k : ℕ),
    (structRowsFrom k steps).length = steps.length := by
  intro steps
  induction steps with
  | nil => intro k; rfl
  | cons s ss ih => intro k; simp only [structRowsFrom, List.length_cons, ih]

lemma structRowsFrom_get :
    ∀ (steps : List StepMsg) (k i : ℕ) (hi : i < steps.length)
      (hri : i < (structRowsFrom k steps).length),
      (structRowsFrom k steps).get ⟨i, hri⟩ = structRow (steps.get ⟨i, hi⟩) (k + i) := by
  intro steps
  induction steps with
  | nil => intro k i hi; simp at hi
  | cons s ss ih =>
    intro k i hi hri
    cases i with
    | zero => rfl
    | succ n =>
      have hn : n < ss.length := by simpa using hi
      have hrn : n < (structRowsFrom (k + 1) ss).length := by
        rw [structRowsFrom_length]; exact hn
      have := ih (k + 1) n hn hrn
      have hk : k + (n + 1) = k + 1 + n := by omega
      rw [hk]
      simpa using this

/-- C9: both summarizers emit exactly one row per source message, in source
order, with 1-based sequential numbering, and the count returned alongside
the CSV equals the number of source messages. -/
theorem C9_row_ordering :
    (∀ (laps : List LapMsg) (recs : List RecordMsg) (rows : List LapRow),
      lapRowsFrom 1 laps recs = .ok rows →
        rows.length = laps.length ∧
        ∀ i (hi : i < laps.length) (hri : i < rows.length),
          lapRow (laps.get ⟨i, hi⟩) recs (i + 1) = .ok (rows.get ⟨i, hri⟩) ∧
          (rows.get ⟨i, hri⟩).lap_number = i + 1) ∧
    (∀ steps : List StepMsg,
      (structRowsFrom 1 steps).length = steps.length ∧
      ∀ i (hi : i < steps.length) (hri : i < (structRowsFrom 1 steps).length),
        (structRowsFrom 1 steps).get ⟨i, hri⟩ = structRow (steps.get ⟨i, hi⟩) (i + 1) ∧
        ((structRowsFrom 1 steps).get ⟨i, hri⟩).step_number = i + 1) ∧
    (∀ (laps : List LapMsg) (recs : List RecordMsg) (csv : String) (n : ℕ),
      parse_lap_data laps recs = .ok (csv, n) → n = laps.length) ∧
    (∀ steps : List StepMsg, (parse_structure steps).2 = steps.length) := by
  refine ⟨?_, ?_, ?_, fun steps => rfl⟩
  · intro laps recs rows h
    obtain ⟨hlen, hidx⟩ := lapRowsFrom_spec laps 1 recs rows h
    refine ⟨hlen, ?_⟩
    intro i hi hri
    have h1 := hidx i hi hri
    have hk : 1 + i = i + 1 := by omega
    rw [hk] at h1
    exact ⟨h1, lapRow_number _ _ _ _ h1⟩
  · intro steps
    refine ⟨structRowsFrom_length steps 1, ?_⟩
    intro i hi hri
    have h1 := structRowsFrom_get steps 1 i hi hri
    have hk : 1 + i = i + 1 := by omega
    rw [hk] at h1
    refine ⟨h1, ?_⟩
    rw [h1]
    rfl
  · intro laps recs csv n h
    unfold parse_lap_data at h
    cases hc : create_lap_data_csv_content laps recs with
    | error u => rw [hc] at h; simp at h
    | ok s =>
      rw [hc] at h
      simp only [Except.ok.injEq, Prod.mk.injEq] at h
      exact h.2.symm

/-- Witness for C9 at a one-lap input: one row, numbered 1, in place. -/
theorem C9_row_ordering_witness :
    ([mkLapRow wLapEmpty 1 Cell.empty none] : List LapRow).length =
      ([wLapEmpty] : List LapMsg).length ∧
    lapRow wLapEmpty [] 1 = .ok (mkLapRow wLapEmpty 1 Cell.empty none) ∧
    (mkLapRow wLapEmpty 1 Cell.empty none).lap_number = 1 := by
  have h := C9_row_ordering.1 [wLapEmpty] [] [mkLapRow wLapEmpty 1 Cell.empty none] rfl
  have h0 := h.2 0 (by simp) (by simp)
  exact ⟨h.1, h0.1, h0.2⟩

lemma collectHR_clean : ∀ (records : List RecordMsg) (s e : ℚ),
    (∀ r ∈ records, cleanRec r) →
    collectHR records s e = .ok (qualSamples records s e) := by
  intro records
  induction records with
  | nil => intro s e _; rfl
  | cons r rs ih =>
    intro s e h
    have hcl := h r (List.mem_cons_self r rs)
    have hrs : ∀ x ∈ rs, cleanRec x := fun x hx => h x (List.mem_cons_of_mem r hx)
    have ihr := ih s e hrs
    rcases ht : r.timestamp with _ | tsv
    · simp only [collectHR, qualSamples, List.filterMap_cons, qualSample, ht, ihr]
    · rcases tsv with _ | ts
      · rcases hh : r.heart_rate with _ | hrv
        · simp only [collectHR, qualSamples, List.filterMap_cons, qualSample, ht, hh, ihr]
        · exfalso
          unfold cleanRec at hcl
          rcases hcl with hcl | hcl
          · exact hcl ht
          · rw [hh] at hcl; exact Option.noConfusion hcl
      · rcases hh : r.heart_rate with _ | hrv
        · simp only [collectHR, qualSamples, List.filterMap_cons, qualSample, ht, hh, ihr]
        · by_cases hw : s ≤ ts ∧ ts < e
          · rcases hrv with _ | hr
            · simp only [collectHR, qualSamples, List.filterMap_cons, qualSample, ht, hh,
                hw, and_self, if_true, ihr]
            · simp only [collectHR, qualSamples, List.filterMap_cons, qualSample, ht, hh,
                hw, and_self, if_true, ihr]
          · simp only [collectHR, qualSamples, List.filterMap_cons, qualSample, ht, hh,
              hw, if_false, ihr]

lemma calculate_hr_drift_eq (records : List RecordMsg) (st d : ℚ)
    (hclean : ∀ r ∈ records, cleanRec r) :
    calculate_hr_drift records st d =
      .ok (if driftAbsent records st d then none else some (driftValue records st d)) := by
  unfold calculate_hr_drift
  by_cases hd : d < 300
  · have habs : driftAbsent records st d := Or.inl hd
    rw [if_pos hd, if_pos habs]
  · rw [if_neg hd, collectHR_clean records st (st + d) hclean]
    have hQ : qualHRs records st d = (qualSamples records st (st + d)).map Prod.snd := rfl
    have hlen : (qualSamples records st (st + d)).length = (qualHRs records st d).length := by
      rw [hQ, List.length_map]
    have hfh : firstHalfHR records st d =
        ((qualSamples records st (st + d)).take ((qualSamples records st (st + d)).length / 2)).map
          Prod.snd := by
      rw [firstHalfHR, hQ, List.map_take, List.length_map]
    have hsh : secondHalfHR records st d =
        ((qualSamples records st (st + d)).drop ((qualSamples records st (st + d)).length / 2)).map
          Prod.snd := by
      rw [secondHalfHR, hQ, List.map_drop, List.length_map]
    by_cases h10 : (qualSamples records st (st + d)).length < 10
    · have habs : driftAbsent records st d := Or.inr (Or.inl (by rw [← hlen]; exact h10))
      simp only [h10, if_true, if_pos habs]
    · simp only [h10, if_false]
      by_cases hemp : ((qualSamples records st (st + d)).take
            ((qualSamples records st (st + d)).length / 2)).map Prod.snd = [] ∨
          ((qualSamples records st (st + d)).drop
            ((qualSamples records st (st + d)).length / 2)).map Prod.snd = []
      · have habs : driftAbsent records st d := by
          rcases hemp with hemp | hemp
          · exact Or.inr (Or.inr (Or.inl (by rw [hfh]; exact hemp)))
          · exact Or.inr (Or.inr (Or.inr (Or.inl (by rw [hsh]; exact hemp))))
        simp only [hemp, if_true, if_pos habs]
      · simp only [hemp, if_false]
        by_cases hz : mean (((qualSamples records st (st + d)).take
            ((qualSamples records st (st + d)).length / 2)).map Prod.snd) = 0
        · have habs : driftAbsent records st d :=
            Or.inr (Or.inr (Or.inr (Or.inr (by rw [hfh]; exact hz))))
          simp only [hz, if_true, if_pos habs]
        · simp only [hz, if_false]
          have habs : ¬ driftAbsent records st d := by
            intro hab
            rcases hab with h1 | h1 | h1 | h1 | h1
            · exact hd h1
            · rw [← hlen] at h1; exact h10 h1
            · rw [hfh] at h1; exact hemp (Or.inl h1)
            · rw [hsh] at h1; exact hemp (Or.inr h1)
            · rw [hfh] at h1; exact hz h1
          rw [if_neg habs]
          unfold driftValue
          rw [hfh, hsh]

/-- C2: with records that cannot raise (no null timestamp under a present
heart_rate key), calculate_hr_drift returns absent exactly when the lap is
shorter than 300 s, fewer than ten samples qualify, a half of the
floor-midpoint split is empty, or the first-half mean is zero; otherwise it
returns the relative drift of the half means as a percentage rounded to two
decimals. -/
theorem C2_drift_characterization (records : List RecordMsg) (lap_start duration : ℚ)
    (hclean : ∀ r ∈ records, cleanRec r) :
    (calculate_hr_drift records lap_start duration = .ok none ↔
      driftAbsent records lap_start duration) ∧
    (¬ driftAbsent records lap_start duration →
      calculate_hr_drift records lap_start duration =
        .ok (some (driftValue records lap_start duration))) := by
  have heq := calculate_hr_drift_eq records lap_start duration hclean
  by_cases hab : driftAbsent records lap_start duration
  · rw [heq, if_pos hab]
    exact ⟨⟨fun _ => hab, fun _ => rfl⟩, fun hctr => absurd hab hctr⟩
  · rw [heq, if_neg hab]
    refine ⟨⟨fun hctr => absurd (Except.ok.inj hctr) (by simp), fun h1 => absurd h1 hab⟩, ?_⟩
    intro _
    rfl

/-- Witness records for C2: twelve clean samples with rising heart rate. -/
def wRecsC2 : List RecordMsg :=
  (List.range 12).map
    (fun k => { timestamp := some (some (k : ℚ)), heart_rate := some (some (80 + 2 * (k : ℚ))) })

/-- Witness for C2: on the twelve-sample window the drift is present and
equals the characterized value. -/
theorem C2_drift_characterization_witness :
    calculate_hr_drift wRecsC2 0 600 = .ok (some (driftValue wRecsC2 0 600)) :=
  (C2_drift_characterization wRecsC2 0 600 (by with_unfolding_all decide)).2
    (by with_unfolding_all decide)

lemma mean_split_gap (l : List ℚ) (hlen : 10 ≤ l.length) (hpw : l.Pairwise (· < ·))
    (hb : ∀ v ∈ l, v.den = 1 ∧ 1 ≤ v ∧ v ≤ 255) :
    l.take (l.length / 2) ≠ [] ∧ l.drop (l.length / 2) ≠ [] ∧
    1 ≤ mean (l.take (l.length / 2)) ∧ mean (l.take (l.length / 2)) ≤ 255 ∧
    mean (l.take (l.length / 2)) + 1 ≤ mean (l.drop (l.length / 2)) := by
  have happend : l.take (l.length / 2) ++ l.drop (l.length / 2) = l :=
    List.take_append_drop (l.length / 2) l
  have hfh_len : (l.take (l.length / 2)).length = l.length / 2 := by
    rw [List.length_take]
    omega
  have hsh_len : (l.drop (l.length / 2)).length = l.length - l.length / 2 := by
    rw [List.length_drop]
  have hfh_ne : l.take (l.length / 2) ≠ [] := by
    apply List.ne_nil_of_length_pos
    omega
  have hsh_ne : l.drop (l.length / 2) ≠ [] := by
    apply List.ne_nil_of_length_pos
    omega
  have hpw2 : (l.take (l.length / 2) ++ l.drop (l.length / 2)).Pairwise (· < ·) := by
    rw [happend]; exact hpw
  obtain ⟨hpf, hps, hcross⟩ := List.pairwise_append.mp hpw2
  have hbf : ∀ v ∈ l.take (l.length / 2), v.den = 1 ∧ 1 ≤ v ∧ v ≤ 255 :=
    fun v hv => hb v (List.take_subset _ _ hv)
  have hbs : ∀ v ∈ l.drop (l.length / 2), v.den = 1 ∧ 1 ≤ v ∧ v ≤ 255 :=
    fun v hv => hb v (List.drop_subset _ _ hv)
  have h1m : (1 : ℚ) ≤ mean (l.take (l.length / 2)) :=
    le_mean_of_forall_le _ 1 hfh_ne (fun x hx => (hbf x hx).2.1)
  have hm255 : mean (l.take (l.length / 2)) ≤ 255 :=
    mean_le_of_forall_le _ 255 hfh_ne (fun x hx => (hbf x hx).2.2)
  refine ⟨hfh_ne, hsh_ne, h1m, hm255, ?_⟩
  apply le_mean_of_forall_le _ _ hsh_ne
  intro y hy
  have hxle : ∀ x ∈ l.take (l.length / 2), x ≤ y - 1 := by
    intro x hx
    have hlt : x < y := hcross x hx y hy
    have := rat_int_add_one_le x y (hbf x hx).1 (hbs y hy).1 hlt
    linarith
  have := mean_le_of_forall_le _ (y - 1) hfh_ne hxle
  linarith

/-- C6: a 299-second window yields absent; a 600-second window with only
five qualifying samples yields absent; and a window of at least 300 seconds
whose at-least-ten qualifying heart-rate samples (integer beats per minute
between 1 and 255) increase strictly in order yields a present, strictly
positive drift. -/
theorem C6_drift_sign :
    (∀ (records : List RecordMsg) (s : ℚ), calculate_hr_drift records s 299 = .ok none) ∧
    (∀ (records : List RecordMsg) (s : ℚ), (∀ r ∈ records, cleanRec r) →
      (qualHRs records s 600).length = 5 → calculate_hr_drift records s 600 = .ok none) ∧
    (∀ (records : List RecordMsg) (s d : ℚ), (∀ r ∈ records, cleanRec r) →
      300 ≤ d → 10 ≤ (qualHRs records s d).length →
      (qualHRs records s d).Pairwise (· < ·) →
      (∀ v ∈ qualHRs records s d, v.den = 1 ∧ 1 ≤ v ∧ v ≤ 255) →
        calculate_hr_drift records s d = .ok (some (driftValue records s d)) ∧
        0 < driftValue records s d) := by
  refine ⟨?_, ?_, ?_⟩
  · intro records s
    unfold calculate_hr_drift
    rw [if_pos (by norm_num : (299 : ℚ) < 300)]
  · intro records s hclean h5
    rw [calculate_hr_drift_eq records s 600 hclean]
    have habs : driftAbsent records s 600 := Or.inr (Or.inl (by omega))
    rw [if_pos habs]
  · intro records s d hclean hd hlen hpw hb
    obtain ⟨hfh_ne, hsh_ne, h1m, hm255, hgap⟩ :=
      mean_split_gap (qualHRs records s d) hlen hpw hb
    have hfh : firstHalfHR records s d =
        (qualHRs records s d).take ((qualHRs records s d).length / 2) := rfl
    have hsh : secondHalfHR records s d =
        (qualHRs records s d).drop ((qualHRs records s d).length / 2) := rfl
    have hm1pos : 0 < mean (firstHalfHR records s d) := by rw [hfh]; linarith
    have habs : ¬ driftAbsent records s d := by
      intro hab
      rcases hab with h1 | h1 | h1 | h1 | h1
      · linarith
      · omega
      · rw [hfh] at h1; exact hfh_ne h1
      · rw [hsh] at h1; exact hsh_ne h1
      · rw [hfh] at h1; rw [hfh] at hm1pos; linarith [hm1pos]
    refine ⟨?_, ?_⟩
    · rw [calculate_hr_drift_eq records s d hclean, if_neg habs]
    · unfold driftValue
      apply pyRound2_pos
      rw [hfh, hsh]
      have hdiff : 1 ≤ mean ((qualHRs records s d).drop ((qualHRs records s d).length / 2)) -
          mean ((qualHRs records s d).take ((qualHRs records s d).length / 2)) := by
        linarith
      have h2 : (1 : ℚ) / 255 ≤
          (mean ((qualHRs records s d).drop ((qualHRs records s d).length / 2)) -
            mean ((qualHRs records s d).take ((qualHRs records s d).length / 2))) /
            mean ((qualHRs records s d).take ((qualHRs records s d).length / 2)) := by
        apply div_le_div (by linarith) hdiff (by rw [hfh] at hm1pos; exact hm1pos) hm255
      nlinarith [h2]

/-- Witness records for C6: twenty clean samples with strictly increasing
integer heart rate 100..119. -/
def wRecsC6 : List RecordMsg :=
  (List.range 20).map
    (fun k => { timestamp := some (some (k : ℚ)), heart_rate := some (some (100 + (k : ℚ))) })

/-- Witness records for the five-sample case of C6. -/
def wRecsFive : List RecordMsg :=
  (List.range 5).map
    (fun k => { timestamp := some (some (k : ℚ)), heart_rate := some (some (100 + (k : ℚ))) })

/-- Witness for C6: the three cases at concrete inputs. -/
theorem C6_drift_sign_witness :
    calculate_hr_drift wRecsC6 0 299 = .ok none ∧
    calculate_hr_drift wRecsFive 0 600 = .ok none ∧
    (calculate_hr_drift wRecsC6 0 600 = .ok (some (driftValue wRecsC6 0 600)) ∧
      0 < driftValue wRecsC6 0 600) :=
  ⟨C6_drift_sign.1 wRecsC6 0,
   C6_drift_sign.2.1 wRecsFive 0 (by with_unfolding_all decide) (by with_unfolding_all decide),
   C6_drift_sign.2.2 wRecsC6 0 600 (by with_unfolding_all decide) (by norm_num)
     (by with_unfolding_all decide) (by with_unfolding_all decide)
     (by with_unfolding_all decide)⟩

end FitProc
